import Mathlib

/-!
Verification of the `Provision` component (src/src/Provision.h) of the
thingsboard-client-sdk repository.

The component is embedded shallowly: the C++ class state (`m_provision_callback`
and the three injected transport callbacks) becomes an explicit state record;
each member function becomes a Lean function taking the state, the function
arguments, and a Boolean oracle for the result of each injected transport
callback it invokes, and returning its C++ return value, the successor state
and the list of observable events (transport-callback invocations, handler
invocations and log lines) it produced, in order.
-/

/-! ### Topic and JSON-key constants (Provision.h lines 10-21) -/

def PROV_RESPONSE_TOPIC : String := "/provision/response"

def PROV_REQUEST_TOPIC : String := "/provision/request"

def DEVICE_NAME_KEY : String := "deviceName"

def PROV_DEVICE_KEY : String := "provisionDeviceKey"

def PROV_DEVICE_SECRET_KEY : String := "provisionDeviceSecret"

def PROV_CRED_TYPE_KEY : String := "credentialsType"

def PROV_TOKEN : String := "token"

def PROV_CRED_USERNAME : String := "username"

def PROV_CRED_PASSWORD : String := "password"

def PROV_CRED_CLIENT_ID : String := "clientId"

def PROV_CRED_HASH : String := "hash"

/-- Modelled from the spec: `Helper::stringIsNullorEmpty` (Helper.h is not part
of src/). A `char const *` is modelled as `Option String`, `none` standing for
a null pointer; the helper is true exactly when the pointer is null or the
string empty. -/
def stringIsNullorEmpty : Option String → Bool
  | none => true
  | some s => s.isEmpty

/-- Modelled from the spec (§3): the Provisioning Request Descriptor
(`Provision_Callback`, whose header is not part of src/). It carries the
required provisioning key and secret, the optional credential fields, and a
response handler; the handler is identified abstractly by a natural number so
that invocations of distinct handlers are distinguishable. -/
structure Provision_Callback where
  deviceKey : Option String
  deviceSecret : Option String
  deviceName : Option String
  accessToken : Option String
  credentialsUsername : Option String
  credentialsPassword : Option String
  credentialsClientID : Option String
  certificateHash : Option String
  credentialsType : Option String
  handler : Nat
deriving DecidableEq, Repr

/-- Modelled from the spec: the default-constructed `Provision_Callback()` —
every field empty and the default no-op handler (handler id 0). -/
def Provision_Callback.defaultCallback : Provision_Callback :=
  ⟨none, none, none, none, none, none, none, none, none, 0⟩

def Provision_Callback.Get_Device_Key (c : Provision_Callback) : Option String :=
  c.deviceKey

def Provision_Callback.Get_Device_Secret (c : Provision_Callback) : Option String :=
  c.deviceSecret

def Provision_Callback.Get_Device_Name (c : Provision_Callback) : Option String :=
  c.deviceName

def Provision_Callback.Get_Device_Access_Token (c : Provision_Callback) : Option String :=
  c.accessToken

def Provision_Callback.Get_Credentials_Username (c : Provision_Callback) : Option String :=
  c.credentialsUsername

def Provision_Callback.Get_Credentials_Password (c : Provision_Callback) : Option String :=
  c.credentialsPassword

def Provision_Callback.Get_Credentials_Client_ID (c : Provision_Callback) : Option String :=
  c.credentialsClientID

def Provision_Callback.Get_Certificate_Hash (c : Provision_Callback) : Option String :=
  c.certificateHash

def Provision_Callback.Get_Credentials_Type (c : Provision_Callback) : Option String :=
  c.credentialsType

/-! ### JSON documents -/

/-- A JSON object document, as an association list of key/value pairs in
insertion order. This models the `StaticJsonDocument` request buffer and the
parsed response documents. -/
abbrev JsonDocument := List (String × String)

/-- ArduinoJson member assignment `doc[k] = v`: replaces the value if the key
is already present, otherwise appends the pair. -/
def setMember (obj : JsonDocument) (k v : String) : JsonDocument :=
  if k ∈ obj.map Prod.fst then obj.map (fun p => if p.1 = k then (k, v) else p)
  else obj ++ [(k, v)]

/-- The request payload built by `Provision_Request` (Provision.h lines 55-89):
starting from an empty `StaticJsonDocument`, each optional field is inserted
only when non-empty, in source order, and the required key and secret are
inserted last. The guard ensures the inserted values are the non-null strings,
so `Option.getD ""` is only a formal total-ization. -/
def buildRequestPayload (cb : Provision_Callback) : JsonDocument :=
  let rb0 : JsonDocument := []
  let rb1 := if !stringIsNullorEmpty cb.Get_Device_Name then
    setMember rb0 DEVICE_NAME_KEY (cb.Get_Device_Name.getD "") else rb0
  let rb2 := if !stringIsNullorEmpty cb.Get_Device_Access_Token then
    setMember rb1 PROV_TOKEN (cb.Get_Device_Access_Token.getD "") else rb1
  let rb3 := if !stringIsNullorEmpty cb.Get_Credentials_Username then
    setMember rb2 PROV_CRED_USERNAME (cb.Get_Credentials_Username.getD "") else rb2
  let rb4 := if !stringIsNullorEmpty cb.Get_Credentials_Password then
    setMember rb3 PROV_CRED_PASSWORD (cb.Get_Credentials_Password.getD "") else rb3
  let rb5 := if !stringIsNullorEmpty cb.Get_Credentials_Client_ID then
    setMember rb4 PROV_CRED_CLIENT_ID (cb.Get_Credentials_Client_ID.getD "") else rb4
  let rb6 := if !stringIsNullorEmpty cb.Get_Certificate_Hash then
    setMember rb5 PROV_CRED_HASH (cb.Get_Certificate_Hash.getD "") else rb5
  let rb7 := if !stringIsNullorEmpty cb.Get_Credentials_Type then
    setMember rb6 PROV_CRED_TYPE_KEY (cb.Get_Credentials_Type.getD "") else rb6
  let rb8 := setMember rb7 PROV_DEVICE_KEY (cb.Get_Device_Key.getD "")
  setMember rb8 PROV_DEVICE_SECRET_KEY (cb.Get_Device_Secret.getD "")

/-- The optional fields of a descriptor paired with the JSON key each is
inserted under, in source order. Used to state the payload-exactness claim. -/
def optionalFieldPairs (cb : Provision_Callback) : List (String × Option String) :=
  [(DEVICE_NAME_KEY, cb.deviceName),
   (PROV_TOKEN, cb.accessToken),
   (PROV_CRED_USERNAME, cb.credentialsUsername),
   (PROV_CRED_PASSWORD, cb.credentialsPassword),
   (PROV_CRED_CLIENT_ID, cb.credentialsClientID),
   (PROV_CRED_HASH, cb.certificateHash),
   (PROV_CRED_TYPE_KEY, cb.credentialsType)]

/-- `JSON_OBJECT_SIZE(n)`: the statically allocated request buffer has room
for `n` key-value pairs. -/
def JSON_OBJECT_SIZE (n : Nat) : Nat := n

/-! ### Observable events and component state -/

/-- One observable action of the component: an invocation of an injected
transport callback (with the Boolean result the transport reported), an
invocation of a stored response handler, or a log line. -/
inductive Event where
  | subscribeTopic (topic : String) (ok : Bool)
  | unsubscribeTopic (topic : String) (ok : Bool)
  | publishJson (topic : String) (payload : JsonDocument) (ok : Bool)
  | invokeHandler (handler : Nat) (doc : JsonDocument)
  | logSubscribeFailed (topic : String)
deriving DecidableEq, Repr

/-- The persistent state of the `Provision` object: the single correlation
slot `m_provision_callback` (Provision.h line 162). The three injected
transport callbacks are modelled as Boolean oracles passed to each operation
rather than stored, since only their results are observable. -/
structure ProvisionState where
  m_provision_callback : Provision_Callback
deriving DecidableEq, Repr

/-- The freshly constructed component: the correlation slot holds the
default-constructed (no-op) callback. -/
def ProvisionState.initial : ProvisionState :=
  ⟨Provision_Callback.defaultCallback⟩

/-! ### Operations (Provision.h member functions) -/

/-- `Provision_Subscribe` (lines 141-148): invoke the subscribe-topic callback
on the response topic; on failure log and return false, on success store the
descriptor in the correlation slot and return true. `subOk` is the result the
injected subscribe-topic callback reports. -/
def Provision_Subscribe (s : ProvisionState) (callback : Provision_Callback)
    (subOk : Bool) : Bool × ProvisionState × List Event :=
  if !subOk then
    (false, s, [Event.subscribeTopic PROV_RESPONSE_TOPIC subOk,
                Event.logSubscribeFailed PROV_RESPONSE_TOPIC])
  else
    (true, { s with m_provision_callback := callback },
     [Event.subscribeTopic PROV_RESPONSE_TOPIC subOk])

/-- `Provision_Unsubscribe` (lines 153-156): reset the correlation slot to the
default-constructed callback, then invoke the unsubscribe-topic callback on
the response topic and return its result. `unsubOk` is the result the injected
unsubscribe-topic callback reports. -/
def Provision_Unsubscribe (s : ProvisionState) (unsubOk : Bool) :
    Bool × ProvisionState × List Event :=
  ((unsubOk, { s with m_provision_callback := Provision_Callback.defaultCallback },
    [Event.unsubscribeTopic PROV_RESPONSE_TOPIC unsubOk]) :
    Bool × ProvisionState × List Event)

/-- `Provision_Request` (lines 44-91): reject if key or secret is null/empty;
otherwise subscribe (failing fast on subscription failure), build the sparse
payload and publish it via the send-json callback, returning that callback's
result. `subOk` and `pubOk` are the results the injected subscribe-topic and
send-json callbacks report. -/
def Provision_Request (s : ProvisionState) (callback : Provision_Callback)
    (subOk pubOk : Bool) : Bool × ProvisionState × List Event :=
  let provision_device_key := callback.Get_Device_Key
  let provision_device_secret := callback.Get_Device_Secret
  if stringIsNullorEmpty provision_device_key ||
     stringIsNullorEmpty provision_device_secret then
    (false, s, [])
  else
    let r := Provision_Subscribe s callback subOk
    if !r.1 then
      (false, r.2.1, r.2.2)
    else
      let request_buffer := buildRequestPayload callback
      (pubOk, r.2.1,
       r.2.2 ++ [Event.publishJson PROV_REQUEST_TOPIC request_buffer pubOk])

/-- `Process_Response` (lines 97-99): raw payload delivery is a no-op. -/
def Process_Response (s : ProvisionState) (topic : String)
    (payload : List Nat) (length : Nat) : ProvisionState × List Event :=
  (s, [])

/-- `Process_Json_Response` (lines 101-106): invoke the handler stored in the
correlation slot with the parsed document, then unconditionally unsubscribe,
discarding the unsubscribe result. -/
def Process_Json_Response (s : ProvisionState) (topic : String)
    (data : JsonDocument) (unsubOk : Bool) : ProvisionState × List Event :=
  let ev := Event.invokeHandler s.m_provision_callback.handler data
  let r := Provision_Unsubscribe s unsubOk
  (r.2.1, ev :: r.2.2)

/-- `Unsubscribe` (lines 112-114): delegates to `Provision_Unsubscribe`. -/
def Unsubscribe (s : ProvisionState) (unsubOk : Bool) :
    Bool × ProvisionState × List Event :=
  Provision_Unsubscribe s unsubOk

/-- `Resubscribe_Topic` (lines 116-118): delegates to `Unsubscribe`. -/
def Resubscribe_Topic (s : ProvisionState) (unsubOk : Bool) :
    Bool × ProvisionState × List Event :=
  Unsubscribe s unsubOk

/-- `Get_Response_Topic_String` (lines 108-110). -/
def Get_Response_Topic_String : String := PROV_RESPONSE_TOPIC

/-- The descriptor of the worked spec example: key `"abc"`, secret `"xyz"`,
device name `"dev1"`, all other fields empty. -/
def exampleProvisionCallback : Provision_Callback :=
  { Provision_Callback.defaultCallback with
    deviceKey := some "abc", deviceSecret := some "xyz",
    deviceName := some "dev1" }

/-! ### Helper lemmas -/

/-- The payload in flattened form: since the nine JSON keys are pairwise
distinct, every `setMember` call appends, so the document is the concatenation
of one conditional singleton per optional field followed by the two required
pairs. -/
def buildRequestPayloadFlat (cb : Provision_Callback) : JsonDocument :=
  (if stringIsNullorEmpty cb.Get_Device_Name then []
   else [(DEVICE_NAME_KEY, cb.Get_Device_Name.getD "")]) ++
  (if stringIsNullorEmpty cb.Get_Device_Access_Token then []
   else [(PROV_TOKEN, cb.Get_Device_Access_Token.getD "")]) ++
  (if stringIsNullorEmpty cb.Get_Credentials_Username then []
   else [(PROV_CRED_USERNAME, cb.Get_Credentials_Username.getD "")]) ++
  (if stringIsNullorEmpty cb.Get_Credentials_Password then []
   else [(PROV_CRED_PASSWORD, cb.Get_Credentials_Password.getD "")]) ++
  (if stringIsNullorEmpty cb.Get_Credentials_Client_ID then []
   else [(PROV_CRED_CLIENT_ID, cb.Get_Credentials_Client_ID.getD "")]) ++
  (if stringIsNullorEmpty cb.Get_Certificate_Hash then []
   else [(PROV_CRED_HASH, cb.Get_Certificate_Hash.getD "")]) ++
  (if stringIsNullorEmpty cb.Get_Credentials_Type then []
   else [(PROV_CRED_TYPE_KEY, cb.Get_Credentials_Type.getD "")]) ++
  [(PROV_DEVICE_KEY, cb.Get_Device_Key.getD ""),
   (PROV_DEVICE_SECRET_KEY, cb.Get_Device_Secret.getD "")]

lemma buildRequestPayload_eq_flat (cb : Provision_Callback) :
    buildRequestPayload cb = buildRequestPayloadFlat cb := by
  unfold buildRequestPayload buildRequestPayloadFlat
  by_cases h1 : stringIsNullorEmpty cb.Get_Device_Name = true <;>
  by_cases h2 : stringIsNullorEmpty cb.Get_Device_Access_Token = true <;>
  by_cases h3 : stringIsNullorEmpty cb.Get_Credentials_Username = true <;>
  by_cases h4 : stringIsNullorEmpty cb.Get_Credentials_Password = true <;>
  by_cases h5 : stringIsNullorEmpty cb.Get_Credentials_Client_ID = true <;>
  by_cases h6 : stringIsNullorEmpty cb.Get_Certificate_Hash = true <;>
  by_cases h7 : stringIsNullorEmpty cb.Get_Credentials_Type = true <;>
    simp [setMember, h1, h2, h3, h4, h5, h6, h7, DEVICE_NAME_KEY, PROV_TOKEN,
      PROV_CRED_USERNAME, PROV_CRED_PASSWORD, PROV_CRED_CLIENT_ID,
      PROV_CRED_HASH, PROV_CRED_TYPE_KEY, PROV_DEVICE_KEY,
      PROV_DEVICE_SECRET_KEY]

/-- Event classifier: a publish-JSON transport invocation. -/
def isPublishEvent : Event → Bool
  | Event.publishJson _ _ _ => true
  | _ => false

/-- Event classifier: a handler invocation. -/
def isInvokeEvent : Event → Bool
  | Event.invokeHandler _ _ => true
  | _ => false

/-- Event classifier: an unsubscribe-topic transport invocation on `t`. -/
def isUnsubscribeOn (t : String) : Event → Bool
  | Event.unsubscribeTopic t' _ => t' == t
  | _ => false

/-! ### Claim theorems -/

/-- C1. For every descriptor with non-empty key and secret, the payload built
by `Provision_Request` has exactly the keys of the non-empty optional fields
(in source order) followed by the two required keys, so no empty optional
field appears; on subscription success `Provision_Request` publishes exactly
this payload on the request topic; and on the example descriptor
{key:"abc", secret:"xyz", deviceName:"dev1"} the payload is exactly
{"deviceName":"dev1","provisionDeviceKey":"abc","provisionDeviceSecret":"xyz"}. -/
theorem provision_request_payload_exact (cb : Provision_Callback)
    (hk : stringIsNullorEmpty cb.Get_Device_Key = false)
    (hs : stringIsNullorEmpty cb.Get_Device_Secret = false) :
    ((buildRequestPayload cb).map Prod.fst =
      ((optionalFieldPairs cb).filter
        (fun p => !stringIsNullorEmpty p.2)).map Prod.fst ++
      [PROV_DEVICE_KEY, PROV_DEVICE_SECRET_KEY]) ∧
    (∀ s pubOk, (Provision_Request s cb true pubOk).2.2 =
      [Event.subscribeTopic PROV_RESPONSE_TOPIC true,
       Event.publishJson PROV_REQUEST_TOPIC (buildRequestPayload cb) pubOk]) ∧
    buildRequestPayload exampleProvisionCallback =
      [(DEVICE_NAME_KEY, "dev1"), (PROV_DEVICE_KEY, "abc"),
       (PROV_DEVICE_SECRET_KEY, "xyz")] := by
  refine ⟨?_, ?_, by rfl⟩
  · rw [buildRequestPayload_eq_flat]
    unfold buildRequestPayloadFlat optionalFieldPairs
    by_cases h1 : stringIsNullorEmpty cb.deviceName = true <;>
    by_cases h2 : stringIsNullorEmpty cb.accessToken = true <;>
    by_cases h3 : stringIsNullorEmpty cb.credentialsUsername = true <;>
    by_cases h4 : stringIsNullorEmpty cb.credentialsPassword = true <;>
    by_cases h5 : stringIsNullorEmpty cb.credentialsClientID = true <;>
    by_cases h6 : stringIsNullorEmpty cb.certificateHash = true <;>
    by_cases h7 : stringIsNullorEmpty cb.credentialsType = true <;>
      simp [h1, h2, h3, h4, h5, h6, h7, Provision_Callback.Get_Device_Name,
        Provision_Callback.Get_Device_Access_Token,
        Provision_Callback.Get_Credentials_Username,
        Provision_Callback.Get_Credentials_Password,
        Provision_Callback.Get_Credentials_Client_ID,
        Provision_Callback.Get_Certificate_Hash,
        Provision_Callback.Get_Credentials_Type, List.filter]
  · intro s pubOk
    simp [Provision_Request, Provision_Subscribe, hk, hs]

/-- C1 witness: the theorem instantiated at the example descriptor. -/
theorem provision_request_payload_exact_witness :
    ((buildRequestPayload exampleProvisionCallback).map Prod.fst =
      ((optionalFieldPairs exampleProvisionCallback).filter
        (fun p => !stringIsNullorEmpty p.2)).map Prod.fst ++
      [PROV_DEVICE_KEY, PROV_DEVICE_SECRET_KEY]) ∧
    buildRequestPayload exampleProvisionCallback =
      [(DEVICE_NAME_KEY, "dev1"), (PROV_DEVICE_KEY, "abc"),
       (PROV_DEVICE_SECRET_KEY, "xyz")] :=
  ⟨(provision_request_payload_exact exampleProvisionCallback rfl rfl).1,
   (provision_request_payload_exact exampleProvisionCallback rfl rfl).2.2⟩

/-- C2. A descriptor with null-or-empty key or secret is rejected immediately:
`Provision_Request` returns false, the state (in particular the correlation
slot) is unchanged, and no event occurs — neither the subscribe nor the
publish callback is invoked. -/
theorem provision_request_rejects_empty (s : ProvisionState)
    (cb : Provision_Callback) (subOk pubOk : Bool)
    (h : stringIsNullorEmpty cb.Get_Device_Key = true ∨
      stringIsNullorEmpty cb.Get_Device_Secret = true) :
    Provision_Request s cb subOk pubOk = (false, s, []) := by
  unfold Provision_Request
  rcases h with h | h <;> simp [h]

/-- C2 witness: a descriptor with a null key and non-empty secret is rejected
with no side effects. -/
theorem provision_request_rejects_empty_witness :
    Provision_Request ProvisionState.initial
      { Provision_Callback.defaultCallback with deviceSecret := some "xyz" }
      true true = (false, ProvisionState.initial, []) :=
  provision_request_rejects_empty ProvisionState.initial
    { Provision_Callback.defaultCallback with deviceSecret := some "xyz" }
    true true (Or.inl rfl)

/-- C3. With valid key and secret, if the subscribe-topic callback reports
failure then `Provision_Request` returns false, the only events are the failed
subscribe call and the log line (so publish is never invoked), and the state —
hence the correlation slot and its stored handler — is unchanged. -/
theorem provision_request_subscribe_failure (s : ProvisionState)
    (cb : Provision_Callback) (pubOk : Bool)
    (hk : stringIsNullorEmpty cb.Get_Device_Key = false)
    (hs : stringIsNullorEmpty cb.Get_Device_Secret = false) :
    Provision_Request s cb false pubOk =
      (false, s, [Event.subscribeTopic PROV_RESPONSE_TOPIC false,
                  Event.logSubscribeFailed PROV_RESPONSE_TOPIC]) ∧
    (∀ e ∈ (Provision_Request s cb false pubOk).2.2, isPublishEvent e = false) ∧
    (Provision_Request s cb false pubOk).2.1.m_provision_callback =
      s.m_provision_callback := by
  refine ⟨?_, ?_, ?_⟩ <;>
    simp [Provision_Request, Provision_Subscribe, hk, hs, isPublishEvent]

/-- C3 witness: the theorem instantiated at the example descriptor from the
initial state. -/
theorem provision_request_subscribe_failure_witness :
    Provision_Request ProvisionState.initial exampleProvisionCallback false true =
      (false, ProvisionState.initial,
       [Event.subscribeTopic PROV_RESPONSE_TOPIC false,
        Event.logSubscribeFailed PROV_RESPONSE_TOPIC]) :=
  (provision_request_subscribe_failure ProvisionState.initial
    exampleProvisionCallback true rfl rfl).1

/-- C10. For every descriptor the built request document holds at most nine
key-value pairs with pairwise-distinct keys, within the statically allocated
capacity `JSON_OBJECT_SIZE(9)`. -/
theorem provision_request_payload_capacity (cb : Provision_Callback) :
    (buildRequestPayload cb).length ≤ JSON_OBJECT_SIZE 9 ∧
    ((buildRequestPayload cb).map Prod.fst).Nodup := by
  rw [buildRequestPayload_eq_flat]
  unfold buildRequestPayloadFlat JSON_OBJECT_SIZE
  by_cases h1 : stringIsNullorEmpty cb.Get_Device_Name = true <;>
  by_cases h2 : stringIsNullorEmpty cb.Get_Device_Access_Token = true <;>
  by_cases h3 : stringIsNullorEmpty cb.Get_Credentials_Username = true <;>
  by_cases h4 : stringIsNullorEmpty cb.Get_Credentials_Password = true <;>
  by_cases h5 : stringIsNullorEmpty cb.Get_Credentials_Client_ID = true <;>
  by_cases h6 : stringIsNullorEmpty cb.Get_Certificate_Hash = true <;>
  by_cases h7 : stringIsNullorEmpty cb.Get_Credentials_Type = true <;>
    simp [h1, h2, h3, h4, h5, h6, h7, DEVICE_NAME_KEY, PROV_TOKEN,
      PROV_CRED_USERNAME, PROV_CRED_PASSWORD, PROV_CRED_CLIENT_ID,
      PROV_CRED_HASH, PROV_CRED_TYPE_KEY, PROV_DEVICE_KEY,
      PROV_DEVICE_SECRET_KEY]

/-- C4. With valid key and secret, `Provision_Request` returns true exactly
when both the subscribe-topic and the send-json callbacks report success; and
when subscription succeeds but publishing fails, the call returns false while
the descriptor stays stored in the correlation slot and no unsubscribe-topic
call is made, so the response subscription stays active. -/
theorem provision_request_result_iff (s : ProvisionState)
    (cb : Provision_Callback) (subOk pubOk : Bool)
    (hk : stringIsNullorEmpty cb.Get_Device_Key = false)
    (hs : stringIsNullorEmpty cb.Get_Device_Secret = false) :
    ((Provision_Request s cb subOk pubOk).1 = true ↔
      (subOk = true ∧ pubOk = true)) ∧
    (subOk = true → pubOk = false →
      (Provision_Request s cb subOk pubOk).1 = false ∧
      (Provision_Request s cb subOk pubOk).2.1.m_provision_callback = cb ∧
      (∀ e ∈ (Provision_Request s cb subOk pubOk).2.2,
        isUnsubscribeOn PROV_RESPONSE_TOPIC e = false)) := by
  cases subOk <;> cases pubOk <;>
    simp [Provision_Request, Provision_Subscribe, hk, hs, isUnsubscribeOn]

/-- C4 witness: the theorem instantiated at the example descriptor with a
successful subscription and a failed publish. -/
theorem provision_request_result_iff_witness :
    ¬((Provision_Request ProvisionState.initial exampleProvisionCallback
        true false).1 = true) ∧
    (Provision_Request ProvisionState.initial exampleProvisionCallback
      true false).2.1.m_provision_callback = exampleProvisionCallback := by
  have h := provision_request_result_iff ProvisionState.initial
    exampleProvisionCallback true false rfl rfl
  exact ⟨fun hc => by simpa using (h.1.mp hc).2, (h.2 rfl rfl).2.1⟩

/-- C5. `Process_Json_Response` first invokes the handler currently stored in
the correlation slot with the parsed document, then unconditionally
unsubscribes: the result is exactly the idle state (default no-op handler in
the slot) and the event list [handler invocation, unsubscribe call], so the
unsubscribe-topic callback runs exactly once on the response topic. -/
theorem process_json_response_dispatch (s : ProvisionState) (topic : String)
    (data : JsonDocument) (unsubOk : Bool) :
    Process_Json_Response s topic data unsubOk =
      ({ m_provision_callback := Provision_Callback.defaultCallback },
       [Event.invokeHandler s.m_provision_callback.handler data,
        Event.unsubscribeTopic PROV_RESPONSE_TOPIC unsubOk]) ∧
    (Process_Json_Response s topic data unsubOk).2.countP
      (isUnsubscribeOn PROV_RESPONSE_TOPIC) = 1 := by
  refine ⟨rfl, ?_⟩
  simp [Process_Json_Response, Provision_Unsubscribe, isUnsubscribeOn,
    List.countP_cons]

/-- C6. If two valid requests both succeed with no response dispatched in
between, the second overwrites the first's handler in the correlation slot;
the first handler is invoked by no event of the second request or of the next
response dispatch, which invokes exactly the second handler. -/
theorem second_request_wins (s : ProvisionState)
    (cb1 cb2 : Provision_Callback) (topic : String) (doc : JsonDocument)
    (unsubOk : Bool)
    (hk1 : stringIsNullorEmpty cb1.Get_Device_Key = false)
    (hs1 : stringIsNullorEmpty cb1.Get_Device_Secret = false)
    (hk2 : stringIsNullorEmpty cb2.Get_Device_Key = false)
    (hs2 : stringIsNullorEmpty cb2.Get_Device_Secret = false)
    (hne : cb1.handler ≠ cb2.handler) :
    (Provision_Request s cb1 true true).1 = true ∧
    (Provision_Request (Provision_Request s cb1 true true).2.1
      cb2 true true).1 = true ∧
    (Provision_Request (Provision_Request s cb1 true true).2.1
      cb2 true true).2.1.m_provision_callback = cb2 ∧
    (∀ d, Event.invokeHandler cb1.handler d ∉
      (Provision_Request (Provision_Request s cb1 true true).2.1
        cb2 true true).2.2 ++
      (Process_Json_Response
        (Provision_Request (Provision_Request s cb1 true true).2.1
          cb2 true true).2.1 topic doc unsubOk).2) ∧
    (Process_Json_Response
      (Provision_Request (Provision_Request s cb1 true true).2.1
        cb2 true true).2.1 topic doc unsubOk).2.filter isInvokeEvent =
      [Event.invokeHandler cb2.handler doc] := by
  refine ⟨?_, ?_, ?_, ?_, ?_⟩ <;>
    simp [Provision_Request, Provision_Subscribe, Process_Json_Response,
      Provision_Unsubscribe, hk1, hs1, hk2, hs2, isInvokeEvent, hne]

/-- C6 witness: two concrete valid descriptors with distinct handlers. -/
theorem second_request_wins_witness :
    (Provision_Request
      (Provision_Request ProvisionState.initial
        { exampleProvisionCallback with handler := 1 } true true).2.1
      { Provision_Callback.defaultCallback with
        deviceKey := some "k2", deviceSecret := some "s2", handler := 2 }
      true true).2.1.m_provision_callback =
      { Provision_Callback.defaultCallback with
        deviceKey := some "k2", deviceSecret := some "s2", handler := 2 } ∧
    (Process_Json_Response
      (Provision_Request
        (Provision_Request ProvisionState.initial
          { exampleProvisionCallback with handler := 1 } true true).2.1
        { Provision_Callback.defaultCallback with
          deviceKey := some "k2", deviceSecret := some "s2", handler := 2 }
        true true).2.1 PROV_RESPONSE_TOPIC [] true).2.filter isInvokeEvent =
      [Event.invokeHandler 2 []] := by
  have h := second_request_wins ProvisionState.initial
    { exampleProvisionCallback with handler := 1 }
    { Provision_Callback.defaultCallback with
      deviceKey := some "k2", deviceSecret := some "s2", handler := 2 }
    PROV_RESPONSE_TOPIC [] true rfl rfl rfl rfl (by decide)
  exact ⟨h.2.2.1, h.2.2.2.2⟩

/-- C7. `Resubscribe_Topic` is the same operation as `Provision_Unsubscribe`
from every state: it returns the unsubscribe callback's result, resets the
correlation slot to the default no-op handler, emits exactly one unsubscribe
call on the response topic, and performs no subscription. -/
theorem resubscribe_equals_unsubscribe (s : ProvisionState) (unsubOk : Bool) :
    Resubscribe_Topic s unsubOk = Provision_Unsubscribe s unsubOk ∧
    Resubscribe_Topic s unsubOk = Unsubscribe s unsubOk ∧
    (Resubscribe_Topic s unsubOk).1 = unsubOk ∧
    (Resubscribe_Topic s unsubOk).2.1.m_provision_callback =
      Provision_Callback.defaultCallback ∧
    (Resubscribe_Topic s unsubOk).2.2 =
      [Event.unsubscribeTopic PROV_RESPONSE_TOPIC unsubOk] ∧
    (∀ t b, Event.subscribeTopic t b ∉ (Resubscribe_Topic s unsubOk).2.2) := by
  refine ⟨rfl, rfl, rfl, rfl, rfl, ?_⟩
  simp [Resubscribe_Topic, Unsubscribe, Provision_Unsubscribe]

/-- C8. Raw payload delivery is a no-op: `Process_Response` leaves the state
untouched and produces no event, so no callback or handler is invoked. -/
theorem process_response_noop (s : ProvisionState) (topic : String)
    (payload : List Nat) (length : Nat) :
    Process_Response s topic payload length = (s, []) := rfl

/-- C9. Unsubscription clears the correlation slot regardless of the
unsubscribe callback's result: after `Provision_Unsubscribe`, `Unsubscribe`,
`Resubscribe_Topic` or `Process_Json_Response` the slot holds the default
no-op handler even when the callback reports failure, and
`Process_Json_Response` discards that result entirely (its outcome does not
depend on it). -/
theorem unsubscribe_always_clears_slot (s : ProvisionState) (topic : String)
    (doc : JsonDocument) (unsubOk : Bool) :
    (Provision_Unsubscribe s unsubOk).2.1.m_provision_callback =
      Provision_Callback.defaultCallback ∧
    (Unsubscribe s unsubOk).2.1.m_provision_callback =
      Provision_Callback.defaultCallback ∧
    (Resubscribe_Topic s unsubOk).2.1.m_provision_callback =
      Provision_Callback.defaultCallback ∧
    (Process_Json_Response s topic doc unsubOk).1.m_provision_callback =
      Provision_Callback.defaultCallback ∧
    (Process_Json_Response s topic doc true).1 =
      (Process_Json_Response s topic doc false).1 :=
  ⟨rfl, rfl, rfl, rfl, rfl⟩
